import Mathlib

/-!
Verification of the extraction-and-consolidation pipeline of the
walks-cadastro-ocr repository (src/scripts/ocr_integration.py).

The Python source is shallowly embedded: dictionaries become association
lists, `None`-able values become `Option`, Python floats arising from the
two score divisions become `ℚ`, and the regular-expression searches are
hand-compiled into equivalent character scanners.  Fuel arguments (always
instantiated with the input length) make every scanner total.
-/

namespace WalksOcr

/-- Python's regex `\s` class, also used for `str.strip`/`str.split`. -/
def pyWs (c : Char) : Bool :=
  c.isWhitespace || c = Char.ofNat 11 || c = Char.ofNat 12

/-- Python `str.strip()` (list-based so that it evaluates in the
kernel). -/
def pyStrip (s : String) : String :=
  String.mk (((s.data.dropWhile pyWs).reverse.dropWhile pyWs).reverse)

/-- The uppercase accented letters of the source's character classes. -/
def accentUppers : List Char :=
  ['Á', 'À', 'Â', 'Ã', 'É', 'Ê', 'Í', 'Ó', 'Ô', 'Õ', 'Ú', 'Ç']

/-- Their lowercase forms. -/
def accentLowers : List Char :=
  ['á', 'à', 'â', 'ã', 'é', 'ê', 'í', 'ó', 'ô', 'õ', 'ú', 'ç']

/-- Lowercasing that also handles the accented uppercase letters
(`Char.toLower` only lowers ASCII). -/
def lowerPt (c : Char) : Char :=
  ((accentUppers.zip accentLowers).lookup c).getD c.toLower

/-- Python `str.lower()` over the alphabet that occurs here. -/
def pyLower (s : String) : String :=
  String.mk (s.data.map lowerPt)

/-- Python `s.startswith(p)`. -/
def pyStartsWith (s p : String) : Bool :=
  p.data.isPrefixOf s.data

/-- Python `s.endswith(p)`. -/
def pyEndsWith (s p : String) : Bool :=
  p.data.reverse.isPrefixOf s.data.reverse

/-- Splitting on a character predicate, keeping empty pieces (Python
`str.split(sep)`). -/
def splitAux (p : Char → Bool) : List Char → List Char → List String
  | acc, [] => [String.mk acc.reverse]
  | acc, c :: rest =>
    if p c then String.mk acc.reverse :: splitAux p [] rest
    else splitAux p (c :: acc) rest

/-- Python `s.split(sep)` for a single-character separator class. -/
def pySplit (s : String) (p : Char → Bool) : List String :=
  splitAux p [] s.data

/-- Does `sub` occur as a contiguous run somewhere in `l`? -/
def containsAux (sub : List Char) : List Char → Bool
  | [] => sub.isEmpty
  | c :: t => sub.isPrefixOf (c :: t) || containsAux sub t

/-- Substring containment, mirroring Python's `sub in s`. -/
def strContains (s sub : String) : Bool :=
  containsAux sub.data s.data

/-- Python truthiness of an optional string (`None` and `""` are falsy). -/
def pyTruthyS (v : Option String) : Bool :=
  (v.getD "") ≠ ""

/-! ## Retry controller (`OCRRetryConfig`, `retry_ocr`) -/

/-- Embedding of `OCRRetryConfig` (delay fields are irrelevant to the
control flow studied here and are omitted; `max_retries` defaults to 3). -/
structure RetryConfig where
  maxRetries : Nat := 3
deriving Repr, DecidableEq

/-- The keyword list of `OCRRetryConfig.should_retry` (line 101-104). -/
def retryableKeywords : List String :=
  ["timeout", "connection", "network", "temporary",
   "rate limit", "server error", "5", "unavailable"]

/-- Keyword test of `should_retry`: some keyword occurs in the lowered
error string. -/
def kwMatch (err : String) : Bool :=
  retryableKeywords.any (fun k => strContains (pyLower err) k)

/-- Embedding of `OCRRetryConfig.should_retry` (lines 93-106). -/
def shouldRetry (cfg : RetryConfig) (err : String) (attempt : Nat) : Bool :=
  if cfg.maxRetries ≤ attempt then false
  else kwMatch err

/-- The slice of a result dictionary that the retry wrapper inspects:
`success` (default `True`), `error` (default `''`), and the two fields the
wrapper itself writes in its terminal-failure dictionary
(`retry_attempts`, `last_error`); absent keys are `none`. -/
structure RDict where
  success : Bool
  error : String
  retryAttempts : Option Nat
  lastError : Option String
deriving Repr, DecidableEq

/-- One attempt of the wrapped coroutine either raises an exception
(carrying its message) or returns a result dictionary. -/
inductive Outcome where
  | raise (msg : String)
  | ok (r : RDict)
deriving Repr, DecidableEq

/-- The terminal-failure dictionary built at lines 168-174
(`processed_at` timestamp omitted). -/
def failDict (cfg : RetryConfig) (last : String) : RDict :=
  { success := false
  , error := "Falha após " ++ toString (cfg.maxRetries + 1)
      ++ " tentativas: " ++ last
  , retryAttempts := some (cfg.maxRetries + 1)
  , lastError := some last }

/-- The `for attempt in range(max_retries + 1)` loop of `retry_ocr`
(lines 125-174).  `attempt` is the current loop index, `remaining` the
number of loop iterations left (initially `max_retries + 1`), `last` the
`last_exception` seen so far (initially the string form of Python's
`None`).  Besides the result, the number of calls made to the wrapped
function is returned. -/
def retryGo (cfg : RetryConfig) (f : Nat → Outcome) :
    Nat → String → Nat → RDict × Nat
  | _, last, 0 => (failDict cfg last, 0)
  | attempt, _last, remaining + 1 =>
    match f attempt with
    | .ok res =>
      -- lines 137-145: a returned dict that signals failure is retried
      -- only when its error message passes `should_retry`
      if res.success = false ∧ shouldRetry cfg res.error attempt = true then
        if attempt < cfg.maxRetries then
          let (out, calls) := retryGo cfg f (attempt + 1) res.error remaining
          (out, calls + 1)
        else (res, 1)
      else (res, 1)
    | .raise msg =>
      -- lines 153-165
      if shouldRetry cfg msg attempt = true then
        let (out, calls) := retryGo cfg f (attempt + 1) msg remaining
        (out, calls + 1)
      else (failDict cfg msg, 1)  -- non-retryable: break out of the loop

/-- Embedding of the `retry_ocr` wrapper applied to a function whose
attempt number `n` produces outcome `f n`. -/
def retryRun (cfg : RetryConfig) (f : Nat → Outcome) : RDict × Nat :=
  retryGo cfg f 0 "None" (cfg.maxRetries + 1)

/-! ## Parsed records and the quality evaluator (`validate_ocr_result`) -/

/-- A parsed record: field name to string-or-null, as produced by
`parse_extracted_data` (dict insertion order preserved). -/
abbrev ParsedRecord := List (String × Option String)

/-- `parsed_data.get(field)`: `None` both for an absent key and for a
stored `None`. -/
def pdGet (pd : ParsedRecord) (field : String) : Option String :=
  ((pd.lookup field).getD none)

/-- One entry of the `quality_checks` table (lines 750-763). -/
structure QualityCheck where
  requiredFields : List String
  minFields : Nat
deriving Repr, DecidableEq

/-- The `quality_checks` table: `None` for document types outside it. -/
def qualityChecks (documentType : String) : Option QualityCheck :=
  if documentType = "rg" then
    some ⟨["nome_completo", "data_nascimento", "cpf"], 2⟩
  else if documentType = "cnpj" then
    some ⟨["empresa", "cnpj", "nome_comprovante"], 2⟩
  else if documentType = "address" then
    some ⟨["cep", "complemento"], 1⟩
  else none

/-- Field-counting test of lines 776-777: the value is truthy, non-empty
after stripping, and not one of the reserved sentinel strings. -/
def fieldFound (pd : ParsedRecord) (field : String) : Bool :=
  match pdGet pd field with
  | none => false
  | some v =>
    v ≠ "" && pyStrip v ≠ "" && !(["[ILEGÍVEL]", "[REVISAR]", "null"].contains v)

/-- The counting loop of lines 770-781, returning
`(valid_fields, found_fields, missing_required)`. -/
def tallyFields (pd : ParsedRecord) (fields : List String) :
    Nat × List String × List String :=
  fields.foldl
    (fun acc f =>
      if fieldFound pd f then (acc.1 + 1, acc.2.1 ++ [f], acc.2.2)
      else (acc.1, acc.2.1, acc.2.2 ++ [f]))
    (0, [], [])

/-- The `quality_metrics` dictionary attached at lines 795-803. -/
structure QMetrics where
  score : ℚ
  validFields : Nat
  totalRequired : Nat
  foundFields : List String
  missingRequired : List String
  isAcceptable : Bool
  needsRetry : Bool
deriving Repr, DecidableEq

/-- The slice of a per-document result dictionary read and written by
`validate_ocr_result` (timestamps omitted). -/
structure OcrResult where
  success : Bool
  documentType : String
  parsedData : ParsedRecord
  error : Option String
  retryReason : Option String
  qualityMetrics : Option QMetrics
deriving Repr, DecidableEq

/-- The quality-rejection error message built at line 808. -/
def qualityErrorMsg (validFields : Nat) (check : QualityCheck) : String :=
  "Apenas " ++ toString validFields ++ "/"
    ++ toString check.requiredFields.length
    ++ " campos essenciais extraídos. Mínimo: " ++ toString check.minFields

/-- Embedding of `WalksBankOCR.validate_ocr_result` (lines 740-814). -/
def validateOcrResult (result : OcrResult) (documentType : String) :
    OcrResult :=
  if result.success = false then result
  else
    match qualityChecks documentType with
    | none => result
    | some check =>
      let t := tallyFields result.parsedData check.requiredFields
      let score : ℚ := ((t.1 : ℚ) / (check.requiredFields.length : ℚ)) * 100
      let acceptable := decide (check.minFields ≤ t.1)
      let qm : QMetrics :=
        { score := score
        , validFields := t.1
        , totalRequired := check.requiredFields.length
        , foundFields := t.2.1
        , missingRequired := t.2.2
        , isAcceptable := acceptable
        , needsRetry := !acceptable }
      if acceptable then { result with qualityMetrics := some qm }
      else
        { result with
            success := false
          , error := some (qualityErrorMsg t.1 check)
          , retryReason := some "insufficient_essential_fields"
          , qualityMetrics := some qm }

/-- View of an `OcrResult` as the dictionary slice the retry wrapper
inspects (`result.get('success', True)`, `result.get('error', '')`). -/
def toRDict (r : OcrResult) : RDict :=
  { success := r.success
  , error := r.error.getD ""
  , retryAttempts := none
  , lastError := none }

/-! ## Value cleaning (`_validate_essential_fields`) -/

/-- The per-value cleaning of lines 604-609, on a string-or-null value:
keep the stripped value when it is truthy, non-blank, and its stripped
lowering is not one of `'null'`, `'none'`, `''`; otherwise store null. -/
def cleanValue : Option String → Option String
  | none => none
  | some s =>
    if s ≠ "" && pyStrip s ≠ ""
        && !(["null", "none", ""].contains (pyLower (pyStrip s))) then
      some (pyStrip s)
    else none

/-- Embedding of `WalksBankOCR._validate_essential_fields`
(lines 600-612); the `document_type` argument is only logged. -/
def validateEssentialFields (data : ParsedRecord) (documentType : String) :
    ParsedRecord :=
  let _ := documentType
  data.map (fun kv => (kv.1, cleanValue kv.2))

/-! ## JSON values and `json.loads`

`json.loads` is modelled by a recursive-descent parser.  Two documented
restrictions: numbers are modelled as integers (fractions/exponents are
rejected), and `\uXXXX` string escapes are rejected; neither shape occurs
in the texts this development evaluates. -/

inductive JValue where
  | jnull
  | jbool (b : Bool)
  | jnum (n : Int)
  | jstr (s : String)
  | jarr (elems : List JValue)
  | jobj (members : List (String × JValue))
deriving Repr, BEq

/-- JSON insignificant whitespace. -/
def jsonWs (c : Char) : Bool :=
  c = ' ' || c = '\t' || c = '\n' || c = '\r'

/-- Drop leading JSON whitespace. -/
def skipJsonWs : List Char → List Char
  | c :: rest => if jsonWs c then skipJsonWs rest else c :: rest
  | [] => []

/-- Body of a JSON string literal, after the opening quote. -/
def parseStrBody (acc : List Char) : List Char → Option (String × List Char)
  | [] => none
  | '"' :: rest => some (String.mk acc.reverse, rest)
  | '\\' :: rest =>
    match rest with
    | [] => none
    | e :: rest2 =>
      if e = '"' then parseStrBody ('"' :: acc) rest2
      else if e = '\\' then parseStrBody ('\\' :: acc) rest2
      else if e = '/' then parseStrBody ('/' :: acc) rest2
      else if e = 'n' then parseStrBody ('\n' :: acc) rest2
      else if e = 't' then parseStrBody ('\t' :: acc) rest2
      else if e = 'r' then parseStrBody ('\r' :: acc) rest2
      else if e = 'b' then parseStrBody (Char.ofNat 8 :: acc) rest2
      else if e = 'f' then parseStrBody (Char.ofNat 12 :: acc) rest2
      else none
  | c :: rest =>
    if c.toNat < 32 then none else parseStrBody (c :: acc) rest

/-- A JSON integer literal (strict: no leading zeros, no sign-only). -/
def parseNum (cs : List Char) : Option (Int × List Char) :=
  let p := match cs with
    | '-' :: r => (true, r)
    | _ => (false, cs)
  let d := p.2.span (fun c => c.isDigit)
  if d.1.isEmpty then none
  else if 1 < d.1.length ∧ d.1.head? = some '0' then none
  else
    match d.2 with
    | '.' :: _ => none
    | 'e' :: _ => none
    | 'E' :: _ => none
    | _ =>
      let n : Nat := d.1.foldl (fun a c => a * 10 + (c.toNat - 48)) 0
      some (if p.1 then -(n : Int) else (n : Int), d.2)

/-- Require the given literal characters. -/
def stripLit : List Char → List Char → Option (List Char)
  | [], cs => some cs
  | l :: ls, c :: cs => if c = l then stripLit ls cs else none
  | _ :: _, [] => none

/-- Insert a member as Python dicts do: replace in place, else append. -/
def insertMember (acc : List (String × JValue)) (k : String) (v : JValue) :
    List (String × JValue) :=
  if (acc.lookup k).isSome then
    acc.map (fun kv => if kv.1 = k then (k, v) else kv)
  else acc ++ [(k, v)]

mutual

/-- Parse one JSON value (fuel-bounded recursive descent). -/
def parseJV : Nat → List Char → Option (JValue × List Char)
  | 0, _ => none
  | fuel + 1, cs =>
    match skipJsonWs cs with
    | '{' :: rest =>
      match skipJsonWs rest with
      | '}' :: r2 => some (.jobj [], r2)
      | r2 => (parseMembers fuel r2 []).map (fun p => (.jobj p.1, p.2))
    | '[' :: rest =>
      match skipJsonWs rest with
      | ']' :: r2 => some (.jarr [], r2)
      | r2 => (parseElems fuel r2 []).map (fun p => (.jarr p.1, p.2))
    | '"' :: rest => (parseStrBody [] rest).map (fun p => (.jstr p.1, p.2))
    | 'n' :: rest => (stripLit ['u', 'l', 'l'] rest).map (fun r => (.jnull, r))
    | 't' :: rest =>
      (stripLit ['r', 'u', 'e'] rest).map (fun r => (.jbool true, r))
    | 'f' :: rest =>
      (stripLit ['a', 'l', 's', 'e'] rest).map (fun r => (.jbool false, r))
    | other => (parseNum other).map (fun p => (.jnum p.1, p.2))

/-- Parse `"key": value (, ...)* }` object members. -/
def parseMembers (fuel : Nat) (cs : List Char)
    (acc : List (String × JValue)) :
    Option (List (String × JValue) × List Char) :=
  match fuel with
  | 0 => none
  | fuel + 1 =>
    match skipJsonWs cs with
    | '"' :: r =>
      match parseStrBody [] r with
      | none => none
      | some (k, r2) =>
        match skipJsonWs r2 with
        | ':' :: r3 =>
          match parseJV fuel r3 with
          | none => none
          | some (v, r4) =>
            match skipJsonWs r4 with
            | ',' :: r5 => parseMembers fuel r5 (insertMember acc k v)
            | '}' :: r5 => some (insertMember acc k v, r5)
            | _ => none
        | _ => none
    | _ => none

/-- Parse `value (, ...)* ]` array elements. -/
def parseElems (fuel : Nat) (cs : List Char) (acc : List JValue) :
    Option (List JValue × List Char) :=
  match fuel with
  | 0 => none
  | fuel + 1 =>
    match parseJV fuel cs with
    | none => none
    | some (v, r1) =>
      match skipJsonWs r1 with
      | ',' :: r2 => parseElems fuel r2 (acc ++ [v])
      | ']' :: r2 => some (acc ++ [v], r2)
      | _ => none

end

/-- Embedding of `json.loads`: the whole text must be one JSON value with
only whitespace around it. -/
def jsonLoads (s : String) : Option JValue :=
  match parseJV (s.length + 1) s.data with
  | some (v, rest) => if (skipJsonWs rest).isEmpty then some v else none
  | none => none

/-! ## `_extract_json_from_text` (lines 399-425) -/

/-- Drop leading Python-regex whitespace. -/
def skipPyWs : List Char → List Char
  | c :: rest => if pyWs c then skipPyWs rest else c :: rest
  | [] => []

/-- The backtick character. -/
def btick : Char := Char.ofNat 96

/-- Strip a literal three-backtick fence. -/
def stripTicks : List Char → Option (List Char)
  | a :: b :: c :: rest =>
    if a = btick ∧ b = btick ∧ c = btick then some rest else none
  | _ => none

/-- Strip the given ASCII letters case-insensitively. -/
def stripCI : List Char → List Char → Option (List Char)
  | [], cs => some cs
  | l :: ls, c :: cs => if c.toLower = l then stripCI ls cs else none
  | _ :: _, [] => none

/-- Scan for the lazy group end of ``⬝⬝⬝json\s*(\{.*?\})\s*⬝⬝⬝``: the first
`}` that is followed by whitespace and a closing fence.  `acc` holds the
group characters read so far, reversed. -/
def fencedClose (acc : List Char) : List Char → Option (String × List Char)
  | [] => none
  | c :: rest =>
    if c = '}' then
      match stripTicks (skipPyWs rest) with
      | some after => some (String.mk (('}' :: acc).reverse), after)
      | none => fencedClose ('}' :: acc) rest
    else fencedClose (c :: acc) rest

/-- Try the fenced-code-block pattern at this position (`requireJsonTag`
distinguishes the first json-tagged pattern from the plain one). -/
def matchFencedAt (requireJsonTag : Bool) (cs : List Char) :
    Option (String × List Char) :=
  match stripTicks cs with
  | none => none
  | some r1 =>
    let r2 := if requireJsonTag then stripCI ['j', 's', 'o', 'n'] r1 else some r1
    match r2 with
    | none => none
    | some r3 =>
      match skipPyWs r3 with
      | '{' :: r4 => fencedClose ['{'] r4
      | _ => none

/-- `re.findall` for a fenced pattern: leftmost, non-overlapping. -/
def findAllFenced (requireJsonTag : Bool) : Nat → List Char → List String
  | 0, _ => []
  | _, [] => []
  | fuel + 1, c :: rest =>
    match matchFencedAt requireJsonTag (c :: rest) with
    | some (g, after) => g :: findAllFenced requireJsonTag fuel after
    | none => findAllFenced requireJsonTag fuel rest

/-- Split off the run of non-brace characters. -/
def spanNonBrace (cs : List Char) : List Char × List Char :=
  cs.span (fun c => c ≠ '{' && c ≠ '}')

/-- Matching loop for `(\{[^{}]*(?:\{[^{}]*\}[^{}]*)*\})`: after the
opening brace and first non-brace run, consume depth-one `{...}` groups
each followed by a non-brace run, until the closing brace. -/
def braceLoop (acc : List Char) : Nat → List Char → Option (String × List Char)
  | _, '}' :: rest => some (String.mk (('}' :: acc).reverse), rest)
  | fuel + 1, '{' :: rest =>
    let b := spanNonBrace rest
    match b.2 with
    | '}' :: r2 =>
      let a := spanNonBrace r2
      braceLoop (a.1.reverse ++ '}' :: b.1.reverse ++ '{' :: acc) fuel a.2
    | _ => none
  | _, _ => none

/-- Try the bare-brace pattern at this position. -/
def matchBraceAt (cs : List Char) : Option (String × List Char) :=
  match cs with
  | '{' :: rest =>
    let a0 := spanNonBrace rest
    braceLoop (a0.1.reverse ++ ['{']) a0.2.length a0.2
  | _ => none

/-- `re.findall` for the bare-brace pattern. -/
def findAllBrace : Nat → List Char → List String
  | 0, _ => []
  | _, [] => []
  | fuel + 1, c :: rest =>
    match matchBraceAt (c :: rest) with
    | some (g, after) => g :: findAllBrace fuel after
    | none => findAllBrace fuel rest

/-- Lines 413-419: try `json.loads(match.strip())` on each candidate in
order, returning the first that parses. -/
def firstJsonCandidate : List String → Option JValue
  | [] => none
  | m :: rest =>
    match jsonLoads (pyStrip m) with
    | some v => some v
    | none => firstJsonCandidate rest

/-- The strategy-2 block of `_extract_json_from_text` (lines 406-419):
fenced json-tagged blocks, then plain fenced blocks, then bare
brace-balanced substrings, each candidate parsed in turn. -/
def embeddedJsonScan (text : String) : Option JValue :=
  let cs := text.data
  let n := cs.length + 1
  firstJsonCandidate
    (findAllFenced true n cs ++ findAllFenced false n cs ++ findAllBrace n cs)

/-- Embedding of `WalksBankOCR._extract_json_from_text` (lines 399-425).
When the trimmed text looks like a whole JSON object, the direct
`json.loads` is returned; its parse failure propagates to the enclosing
handler, which yields `None` — the embedded strategies only run when the
direct precondition fails. -/
def extractJsonFromText (text : String) : Option JValue :=
  let t := pyStrip text
  if pyStartsWith t "\x7b" && pyEndsWith t "\x7d" then jsonLoads t
  else embeddedJsonScan text

/-! ## Hand-compiled regex scanners for the pattern-extraction fallback

Each `re` pattern of `_extract_rg_fields`, `_extract_cnpj_fields` and
`_extract_address_fields` is compiled to a character scanner with
`re.search` semantics: positions are tried left to right and the first
full match wins; greedy/lazy behaviour of the concrete patterns is
reproduced as analysed in the comments. -/

/-- `[A-ZÁÀÂÃÉÊÍÓÔÕÚÇ\s]` under `re.IGNORECASE`. -/
def clsNameCI (c : Char) : Bool :=
  c.isAlpha || accentUppers.contains c || accentLowers.contains c || pyWs c

/-- `[A-ZÁÀÂÃÉÊÍÓÔÕÚÇ\s\-\.]` under `re.IGNORECASE`. -/
def clsCompanyCI (c : Char) : Bool :=
  clsNameCI c || c = '-' || c = '.'

/-- `[A-ZÁÀÂÃÉÊÍÓÔÕÚÇ\s\-\.]` case-sensitively (the `nome_comprovante`
line check uses `re.match` without flags). -/
def clsCompanyCS (c : Char) : Bool :=
  c.isUpper || accentUppers.contains c || pyWs c || c = '-' || c = '.'

/-- `[A-Z0-9\s\-]` under `re.IGNORECASE`. -/
def clsComplemento (c : Char) : Bool :=
  c.isAlpha || c.isDigit || pyWs c || c = '-'

/-- Match a lowercase-given label case-insensitively at the head. -/
def stripLabelCI : List Char → List Char → Option (List Char)
  | [], cs => some cs
  | l :: ls, c :: cs => if lowerPt c = l then stripLabelCI ls cs else none
  | _ :: _, [] => none

/-- The `[:\s]` separator class. -/
def sepChar (c : Char) : Bool := c = ':' || pyWs c

/-- Try `label[:\s]+(cls{minLen,})` at this position.  The separator run
is greedy; backtracking can hand its trailing whitespace back to the
capture (whitespace belongs to every class used here), which the caller's
`.strip()` then erases — so the returned capture is the class run, and
the raw-length condition counts reclaimable whitespace.  Returns the
capture and the remainder after it (for `findall` continuation). -/
def attemptLabelled (label : List Char) (cls : Char → Bool) (minLen : Nat)
    (cs : List Char) : Option (String × List Char) :=
  match stripLabelCI label cs with
  | none => none
  | some r1 =>
    let sep := r1.span sepChar
    if sep.1.length = 0 then none
    else
      let run := sep.2.span cls
      let trailWs := (sep.1.reverse.span pyWs).1.length
      let reclaim := min trailWs (sep.1.length - 1)
      if minLen ≤ reclaim + run.1.length then
        some (String.mk run.1, run.2)
      else none

/-- `re.search` driver: try an at-position matcher at every position. -/
def searchAux (attempt : List Char → Option (String × List Char)) :
    Nat → List Char → Option String
  | 0, _ => none
  | _, [] => none
  | fuel + 1, c :: rest =>
    match attempt (c :: rest) with
    | some p => some p.1
    | none => searchAux attempt fuel rest

/-- `re.search` over a whole character list. -/
def searchP (attempt : List Char → Option (String × List Char))
    (cs : List Char) : Option String :=
  searchAux attempt (cs.length + 1) cs

/-- `re.findall` driver: leftmost, non-overlapping matches. -/
def findAllAux (attempt : List Char → Option (String × List Char)) :
    Nat → List Char → List String
  | 0, _ => []
  | _, [] => []
  | fuel + 1, c :: rest =>
    match attempt (c :: rest) with
    | some (g, after) => g :: findAllAux attempt fuel after
    | none => findAllAux attempt fuel rest

/-- Suffixes of the text at line starts (for `re.MULTILINE` `^`). -/
def lineStartSuffixes (cs : List Char) : List (List Char) :=
  cs :: go cs
where
  go : List Char → List (List Char)
    | [] => []
    | c :: rest => if c = '\n' then rest :: go rest else go rest

/-- Largest `p` with `minLen ≤ p ≤ bound` whose remainder satisfies the
anchored pattern's tail (greedy repetition with backtracking). -/
def pickGreedy (cs : List Char) (minLen : Nat) (tailOk : List Char → Bool) :
    Nat → Option Nat
  | 0 => if minLen = 0 ∧ tailOk cs then some 0 else none
  | p + 1 =>
    if p + 1 < minLen then none
    else if tailOk (cs.drop (p + 1)) then some (p + 1)
    else pickGreedy cs minLen tailOk p

/-- Try `^(cls{minLen,})tail` at a line start. -/
def attemptAnchored (cls : Char → Bool) (minLen : Nat)
    (tailOk : List Char → Bool) (cs : List Char) : Option String :=
  let run := cs.span cls
  (pickGreedy cs minLen tailOk run.1.length).map
    (fun p => String.mk (cs.take p))

/-- `re.search` of a `^`-anchored multiline pattern: line starts in
order. -/
def searchAnchored (cls : Char → Bool) (minLen : Nat)
    (tailOk : List Char → Bool) (cs : List Char) : Option String :=
  (lineStartSuffixes cs).findSome? (attemptAnchored cls minLen tailOk)

/-- The pattern loop shared by the field extractors: try each pattern's
search in order; on a match apply the validation/transformation, breaking
on acceptance and falling through to the next pattern otherwise. -/
def patternLoop (transform : String → Option String) :
    List (List Char → Option String) → List Char → Option String
  | [], _ => none
  | p :: ps, cs =>
    match p cs with
    | some cap =>
      match transform cap with
      | some v => some v
      | none => patternLoop transform ps cs
    | none => patternLoop transform ps cs

/-- Exactly `n` digits. -/
def takeDigits : Nat → List Char → Option (List Char × List Char)
  | 0, cs => some ([], cs)
  | n + 1, c :: cs =>
    if c.isDigit then (takeDigits n cs).map (fun p => (c :: p.1, p.2))
    else none
  | _ + 1, [] => none

/-- An optional single character (greedy; the follower is always a digit
run here, so consuming when present is exact). -/
def optCh (p : Char → Bool) (cs : List Char) : List Char × List Char :=
  match cs with
  | c :: rest => if p c then ([c], rest) else ([], cs)
  | [] => ([], [])

/-- One required character from a class. -/
def oneCh (p : Char → Bool) : List Char → Option (Char × List Char)
  | c :: rest => if p c then some (c, rest) else none
  | [] => none

/-- `(\d{2}\.?\d{3}\.?\d{3}[/\-]?\d{4}[\-\.]?\d{2})` at a position. -/
def cnpjAt (cs : List Char) : Option (String × List Char) := do
  let (d1, r1) ← takeDigits 2 cs
  let o1 := optCh (· = '.') r1
  let (d2, r2) ← takeDigits 3 o1.2
  let o2 := optCh (· = '.') r2
  let (d3, r3) ← takeDigits 3 o2.2
  let o3 := optCh (fun c => c = '/' || c = '-') r3
  let (d4, r4) ← takeDigits 4 o3.2
  let o4 := optCh (fun c => c = '-' || c = '.') r4
  let (d5, r5) ← takeDigits 2 o4.2
  pure (String.mk
    (d1 ++ o1.1 ++ d2 ++ o2.1 ++ d3 ++ o3.1 ++ d4 ++ o4.1 ++ d5), r5)

/-- `(\d{3}\.?\d{3}\.?\d{3}[\-\.]?\d{2})` at a position. -/
def cpfAt (cs : List Char) : Option (String × List Char) := do
  let (d1, r1) ← takeDigits 3 cs
  let o1 := optCh (· = '.') r1
  let (d2, r2) ← takeDigits 3 o1.2
  let o2 := optCh (· = '.') r2
  let (d3, r3) ← takeDigits 3 o2.2
  let o3 := optCh (fun c => c = '-' || c = '.') r3
  let (d4, r4) ← takeDigits 2 o3.2
  pure (String.mk (d1 ++ o1.1 ++ d2 ++ o2.1 ++ d3 ++ o3.1 ++ d4), r4)

/-- `(\d{5}[\-\.]?\d{3})` at a position. -/
def cepAt (cs : List Char) : Option (String × List Char) := do
  let (d1, r1) ← takeDigits 5 cs
  let o1 := optCh (fun c => c = '-' || c = '.') r1
  let (d2, r2) ← takeDigits 3 o1.2
  pure (String.mk (d1 ++ o1.1 ++ d2), r2)

/-- The `[/\-\.]` date separator class. -/
def sepDMY (c : Char) : Bool := c = '/' || c = '-' || c = '.'

/-- `(\d{1,2}[/\-\.]\d{1,2}[/\-\.]\d{4})` at a position, with the given
lengths for the two greedy `{1,2}` repetitions. -/
def dateAtWith (n1 n2 : Nat) (cs : List Char) :
    Option (String × List Char) := do
  let (d1, r1) ← takeDigits n1 cs
  let (s1, r2) ← oneCh sepDMY r1
  let (d2, r3) ← takeDigits n2 r2
  let (s2, r4) ← oneCh sepDMY r3
  let (d4, r5) ← takeDigits 4 r4
  pure (String.mk (d1 ++ [s1] ++ d2 ++ [s2] ++ d4), r5)

/-- The date pattern at a position: greedy order over the two `{1,2}`
repetitions. -/
def dateAt (cs : List Char) : Option (String × List Char) :=
  (dateAtWith 2 2 cs).orElse fun _ =>
  (dateAtWith 2 1 cs).orElse fun _ =>
  (dateAtWith 1 2 cs).orElse fun _ =>
  dateAtWith 1 1 cs

/-- `label[:\s]+` followed by a compiled numeric pattern (used by the
labelled variants of the cnpj/cpf/cep/date patterns). -/
def attemptLabelledPat (label : List Char)
    (pat : List Char → Option (String × List Char)) (cs : List Char) :
    Option (String × List Char) := do
  let r1 ← stripLabelCI label cs
  let sep := r1.span sepChar
  if sep.1.length = 0 then none else pat sep.2

/-- Count of decimal digits (the `re.sub(r'[^\d]', '', x)` length
validations). -/
def digitCount (s : String) : Nat :=
  (s.data.filter Char.isDigit).length

/-- `str.split()` word count (whitespace runs, empties dropped). -/
def wordCount (s : String) : Nat :=
  ((pySplit s pyWs).filter (· ≠ "")).length

/-! ### `_extract_rg_fields` (lines 439-491) -/

/-- Embedding of `WalksBankOCR._extract_rg_fields`. -/
def extractRgFields (text : String) : ParsedRecord :=
  let cs := text.data
  let nome := patternLoop
    (fun cap =>
      let n := pyStrip cap
      if 2 ≤ wordCount n then some n else none)
    [ searchP (attemptLabelled "nome".data clsNameCI 10)
    , searchP (attemptLabelled "nome completo".data clsNameCI 10)
    , searchAnchored clsNameCI 15
        (fun r => r.isEmpty || r.head? = some '\n') ] cs
  let data := patternLoop (fun cap => some cap)
    [ searchP dateAt
    , searchP (attemptLabelledPat "nascimento".data dateAt)
    , searchP (attemptLabelledPat "data".data dateAt) ] cs
  let cpf := patternLoop
    (fun cap => if digitCount cap = 11 then some cap else none)
    [ searchP cpfAt
    , searchP (attemptLabelledPat "cpf".data cpfAt) ] cs
  [("nome_completo", nome), ("data_nascimento", data), ("cpf", cpf)]

/-! ### `_extract_cnpj_fields` (lines 493-549) -/

/-- The cnpj-number pattern loop (lines 502-515). -/
def cnpjFieldScan (cs : List Char) : Option String :=
  patternLoop
    (fun cap => if digitCount cap = 14 then some cap else none)
    [ searchP cnpjAt
    , searchP (attemptLabelledPat "cnpj".data cnpjAt) ] cs

/-- The company-name pattern loop (lines 518-535): five patterns, value
stripped and kept only when at least 5 characters long. -/
def empresaFieldScan (cs : List Char) : Option String :=
  patternLoop
    (fun cap =>
      let e := pyStrip cap
      if 5 ≤ e.length then some e else none)
    [ searchP (attemptLabelled "razão social".data clsCompanyCI 5)
    , searchP (attemptLabelled "nome fantasia".data clsCompanyCI 5)
    , searchP (attemptLabelled "empresa".data clsCompanyCI 5)
    , fun l => searchAnchored clsCompanyCI 10
        (fun r => (stripLabelCI "ltda".data (skipPyWs r)).isSome) l
    , fun l => searchAnchored clsCompanyCI 10
        (fun r =>
          match skipPyWs r with
          | c :: rest =>
            lowerPt c = 's' &&
            (match rest with
             | '.' :: a :: _ => lowerPt a = 'a'
             | a :: _ => lowerPt a = 'a'
             | [] => false)
          | [] => false) l ] cs

/-- The company-name line scan of lines 538-547.  The line is entirely in
the case-sensitive uppercase class, so `line.upper() = line` and the
keyword containment is checked on the line itself. -/
def nomeComprovanteLineScan (text : String) : Option String :=
  (pySplit text (· = '\n')).findSome? (fun line =>
    let l := pyStrip line
    if 10 ≤ l.length && l.data.all clsCompanyCS
        && (["LTDA", "S.A", "EIRELI", "ME", "EPP"].any
              (fun w => strContains l w)) then
      some l
    else none)

/-- Embedding of `WalksBankOCR._extract_cnpj_fields`.  At the moment the
empresa loop writes its field, `nome_comprovante` is still `None`, so the
inner truthiness guard (line 533) always fires and copies the company
name; the line scan of lines 538-547 runs only when the empresa loop
found nothing. -/
def extractCnpjFields (text : String) : ParsedRecord :=
  let cs := text.data
  let cnpjV := cnpjFieldScan cs
  let empresaV := empresaFieldScan cs
  let nomeV :=
    match empresaV with
    | some e => some e
    | none => nomeComprovanteLineScan text
  [("empresa", empresaV), ("cnpj", cnpjV), ("nome_comprovante", nomeV)]

/-! ### `_extract_address_fields` (lines 551-598) -/

/-- First-occurrence deduplication.  The source uses `set(complementos)`,
whose iteration order is implementation-defined; insertion order is used
here, which matters only to the joined string's ordering. -/
def dedupKeepFirst (l : List String) : List String :=
  l.foldl (fun acc s => if acc.contains s then acc else acc ++ [s]) []

/-- The at-position matchers of the `complemento_patterns` list, in the
source's order.  The `apto?` pattern's optional greedy `o` becomes: try
the label `apto`, else `apt`. -/
def complementoAttempts : List (List Char → Option (String × List Char)) :=
  [ attemptLabelled "quadra".data clsComplemento 1
  , attemptLabelled "qd".data clsComplemento 1
  , attemptLabelled "lote".data clsComplemento 1
  , attemptLabelled "lt".data clsComplemento 1
  , attemptLabelled "casa".data clsComplemento 1
  , attemptLabelled "apartamento".data clsComplemento 1
  , fun cs =>
      match attemptLabelled "apto".data clsComplemento 1 cs with
      | some r => some r
      | none => attemptLabelled "apt".data clsComplemento 1 cs
  , attemptLabelled "bloco".data clsComplemento 1
  , attemptLabelled "complemento".data clsComplemento 1 ]

/-- Embedding of `WalksBankOCR._extract_address_fields`. -/
def extractAddressFields (text : String) : ParsedRecord :=
  let cs := text.data
  let cep := patternLoop
    (fun cap => if digitCount cap = 8 then some cap else none)
    [ searchP cepAt
    , searchP (attemptLabelledPat "cep".data cepAt) ] cs
  let comps :=
    (complementoAttempts.foldr
      (fun att rest => findAllAux att (cs.length + 1) cs ++ rest)
      []).filterMap (fun m =>
          let comp := pyStrip m
          if comp ≠ "" && comp.length ≤ 20 then some comp else none)
  let complemento :=
    if comps.isEmpty then none
    else some (String.intercalate ", " (dedupKeepFirst comps))
  [("cep", cep), ("complemento", complemento)]

/-- Embedding of `WalksBankOCR._extract_with_focused_regex`
(lines 427-437): dispatch per document type, empty record otherwise. -/
def extractWithFocusedRegex (text : String) (documentType : String) :
    ParsedRecord :=
  if documentType = "rg" then extractRgFields text
  else if documentType = "cnpj" then extractCnpjFields text
  else if documentType = "address" then extractAddressFields text
  else []

/-! ## `parse_extracted_data` (lines 376-397) -/

/-- Conversion of one JSON value to the string-or-null stored by the
cleaning loop: falsy values (`null`, `False`, `0`, `""`, empty
containers) fail the `if value` test and are stored as null; the rest go
through Python `str`.  Non-empty containers are abbreviated (their
`str` form is never compared beyond its leading bracket and none of the
evaluated inputs contains container-valued fields). -/
def jvToOptStr : JValue → Option String
  | .jnull => none
  | .jbool false => none
  | .jbool true => some "True"
  | .jnum n => if n = 0 then none else some (toString n)
  | .jstr s => if s = "" then none else some s
  | .jarr [] => none
  | .jarr (_ :: _) => some "[...]"
  | .jobj [] => none
  | .jobj (_ :: _) => some "\x7b...\x7d"

/-- A parsed JSON object as a field record. -/
def recordOfObj (kvs : List (String × JValue)) : ParsedRecord :=
  kvs.map (fun kv => (kv.1, jvToOptStr kv.2))

/-- Embedding of `WalksBankOCR.parse_extracted_data` (lines 376-397).
Strategy 1 result is used only when truthy (`if json_result:` — an empty
dict falls through); otherwise the focused-regex fallback runs.  A
non-object JSON result cannot occur (every candidate is brace-delimited)
and is routed to the fallback arm.  Both arms finish with
`_validate_essential_fields`. -/
def parseExtractedData (rawText : String) (documentType : String) :
    ParsedRecord :=
  match extractJsonFromText rawText with
  | some (.jobj (kv :: kvs)) =>
    validateEssentialFields (recordOfObj (kv :: kvs)) documentType
  | _ =>
    validateEssentialFields (extractWithFocusedRegex rawText documentType)
      documentType

/-! ## `get_document_prompt` (lines 214-270) -/

/-- The `base_instructions` block (lines 224-231). -/
def baseInstructions : String :=
  "\n        INSTRUÇÕES IMPORTANTES:\n        1. Extraia APENAS os campos solicitados abaixo\n        2. Para campos não encontrados, use null\n        3. Se texto ilegível, use \"[ILEGÍVEL]\"\n        4. RETORNE APENAS UM JSON VÁLIDO, sem texto adicional\n        5. Seja preciso e direto na extração\n        "

/-- The `prompts['rg']` f-string. -/
def rgPrompt : String :=
  "\n            " ++ baseInstructions ++
  "\n            \n            Extraia APENAS estes 3 campos essenciais do RG/Identidade:\n            \n            \x7b\n                \"nome_completo\": \"nome completo da pessoa ou null\",\n                \"data_nascimento\": \"data no formato DD/MM/AAAA ou null\", \n                \"cpf\": \"CPF com ou sem máscara ou null\"\n            \x7d\n            "

/-- The `prompts['cnpj']` f-string. -/
def cnpjPrompt : String :=
  "\n            " ++ baseInstructions ++
  "\n            \n            Extraia APENAS estes 3 campos essenciais do Comprovante CNPJ:\n            \n            \x7b\n                \"empresa\": \"razão social ou nome fantasia da empresa ou null\",\n                \"cnpj\": \"CNPJ com ou sem máscara ou null\",\n                \"nome_comprovante\": \"nome da empresa conforme aparece no comprovante ou null\"\n            \x7d\n            "

/-- The `prompts['address']` f-string. -/
def addressPrompt : String :=
  "\n            " ++ baseInstructions ++
  "\n            \n            Extraia APENAS estes 2 campos essenciais do Comprovante de Endereço:\n            \n            \x7b\n                \"cep\": \"CEP com ou sem máscara ou null\",\n                \"complemento\": \"informações como Quadra, Lote, Casa, Apartamento, Bloco, etc. ou null\"\n            \x7d\n            "

/-- Embedding of `WalksBankOCR.get_document_prompt` (lines 214-270):
`prompts.get(document_type, prompts['cnpj'])` — any type outside the
three-key dictionary receives the cnpj prompt. -/
def getDocumentPrompt (documentType : String) : String :=
  if documentType = "rg" then rgPrompt
  else if documentType = "cnpj" then cnpjPrompt
  else if documentType = "address" then addressPrompt
  else cnpjPrompt

/-! ## `consolidate_customer_data` (lines 641-737)

The consolidated dictionary mixes strings, `None`, numbers and a list, so
its values are modelled by a small Python-value type. -/

inductive PyVal where
  | vNone
  | vStr (s : String)
  | vInt (n : Int)
  | vRat (q : ℚ)
  | vList (l : List String)
deriving Repr, BEq, DecidableEq

/-- Python truthiness. -/
def pyTruthy : PyVal → Bool
  | .vNone => false
  | .vStr s => s ≠ ""
  | .vInt n => n ≠ 0
  | .vRat q => q ≠ 0
  | .vList l => !l.isEmpty

/-- Python `str`.  List elements are shown unquoted (only the leading
bracket of the rendering is ever inspected). -/
def pyStr : PyVal → String
  | .vNone => "None"
  | .vStr s => s
  | .vInt n => toString n
  | .vRat q => toString q.num ++ "/" ++ toString q.den
  | .vList l => "[" ++ String.intercalate ", " l ++ "]"

/-- Python `v != ''` (values of non-string type are simply unequal). -/
def pyNeEmptyStr : PyVal → Bool
  | .vStr s => s ≠ ""
  | _ => true

/-- The slice of one per-document OCR result the consolidator reads. -/
structure DocInput where
  success : Bool
  parsedData : List (String × PyVal)
deriving Repr, DecidableEq

/-- `parsed_data.get(key)`. -/
def pdGetV (d : List (String × PyVal)) (k : String) : PyVal :=
  (d.lookup k).getD .vNone

/-- Python `a or b`. -/
def pyOr (a b : PyVal) : PyVal := if pyTruthy a then a else b

/-- Dictionary value replacement (all updated keys pre-exist, so Python's
`update` only overwrites in place). -/
def dictSet : List (String × PyVal) → String → PyVal →
    List (String × PyVal)
  | [], _, _ => []
  | (k', v') :: rest, k, v =>
    if k' = k then (k', v) :: rest else (k', v') :: dictSet rest k v

/-- `dict.update` with several keys. -/
def dictSetMany (d : List (String × PyVal))
    (kvs : List (String × PyVal)) : List (String × PyVal) :=
  kvs.foldl (fun acc kv => dictSet acc kv.1 kv.2) d

/-- `consolidated[k]` (every key read pre-exists). -/
def dictGetV (d : List (String × PyVal)) (k : String) : PyVal :=
  (d.lookup k).getD .vNone

/-- The initial `consolidated` dictionary (lines 651-680), in source
order. -/
def initialConsolidated : List (String × PyVal) :=
  [ ("empresa", .vNone), ("cnpj", .vNone), ("inscricaoEstadual", .vNone)
  , ("email", .vNone), ("telefone", .vNone), ("celular", .vNone)
  , ("cep", .vNone), ("endereco", .vNone), ("numero", .vNone)
  , ("complemento", .vNone), ("bairro", .vNone), ("cidade", .vNone)
  , ("uf", .vNone)
  , ("nomeCompleto", .vNone), ("cpf", .vNone), ("dataNascimento", .vNone)
  , ("enderecoProprietario", .vNone)
  , ("confidenceScore", .vInt 0), ("fieldsExtracted", .vInt 0)
  , ("fieldsTotal", .vInt 0), ("needsReview", .vList []) ]

/-- Lines 683-698: company data from a present, successful cnpj result. -/
def stepCnpj (ocr : List (String × DocInput))
    (c : List (String × PyVal)) : List (String × PyVal) :=
  match ocr.lookup "cnpj" with
  | some doc =>
    if doc.success then
      dictSetMany c
        [ ("empresa", pyOr (pdGetV doc.parsedData "razao_social")
            (pdGetV doc.parsedData "nome_fantasia"))
        , ("cnpj", pdGetV doc.parsedData "cnpj")
        , ("inscricaoEstadual", pdGetV doc.parsedData "inscricao_estadual")
        , ("email", pdGetV doc.parsedData "email")
        , ("telefone", pdGetV doc.parsedData "telefone")
        , ("endereco", pdGetV doc.parsedData "endereco")
        , ("numero", pdGetV doc.parsedData "numero")
        , ("complemento", pdGetV doc.parsedData "complemento")
        , ("bairro", pdGetV doc.parsedData "bairro")
        , ("cidade", pdGetV doc.parsedData "cidade")
        , ("uf", pdGetV doc.parsedData "uf")
        , ("cep", pdGetV doc.parsedData "cep") ]
    else c
  | none => c

/-- Lines 701-707: owner data from a present, successful rg result. -/
def stepRg (ocr : List (String × DocInput))
    (c : List (String × PyVal)) : List (String × PyVal) :=
  match ocr.lookup "rg" with
  | some doc =>
    if doc.success then
      dictSetMany c
        [ ("nomeCompleto", pdGetV doc.parsedData "nome_completo")
        , ("cpf", pdGetV doc.parsedData "cpf")
        , ("dataNascimento", pdGetV doc.parsedData "data_nascimento") ]
    else c
  | none => c

/-- Lines 710-722: the proof-of-address block is copied as a whole, and
only when the `endereco` entry is falsy after the previous steps. -/
def stepAddr (ocr : List (String × DocInput))
    (c : List (String × PyVal)) : List (String × PyVal) :=
  match ocr.lookup "address" with
  | some doc =>
    if doc.success then
      if pyTruthy (dictGetV c "endereco") then c
      else
        dictSetMany c
          [ ("endereco", pdGetV doc.parsedData "endereco")
          , ("numero", pdGetV doc.parsedData "numero")
          , ("complemento", pdGetV doc.parsedData "complemento")
          , ("bairro", pdGetV doc.parsedData "bairro")
          , ("cidade", pdGetV doc.parsedData "cidade")
          , ("uf", pdGetV doc.parsedData "uf")
          , ("cep", pdGetV doc.parsedData "cep") ]
    else c
  | none => c

/-- Embedding of `WalksBankOCR.consolidate_customer_data`
(lines 641-737).  Note the metric asymmetry of lines 725-726, kept
faithfully: `total_fields` filters the *keys* (metadata excluded) while
`filled_fields` filters all *values* — at counting time the metadata
entries still hold `0`, `0`, `0` and `[]`, of which the three integers
pass every filter condition. -/
def consolidateCustomerData (ocr : List (String × DocInput)) :
    List (String × PyVal) :=
  let c3 := stepAddr ocr (stepRg ocr (stepCnpj ocr initialConsolidated))
  let totalFields :=
    (c3.filter (fun kv =>
      !pyStartsWith kv.1 "confidence" && !pyStartsWith kv.1 "fields"
        && kv.1 ≠ "needsReview")).length
  let filledFields :=
    (c3.filter (fun kv =>
      kv.2 ≠ .vNone && pyNeEmptyStr kv.2
        && !pyStartsWith (pyStr kv.2) "[")).length
  let c4 := dictSet c3 "fieldsTotal" (.vInt totalFields)
  let c5 := dictSet c4 "fieldsExtracted" (.vInt filledFields)
  let score : ℚ :=
    if 0 < totalFields then ((filledFields : ℚ) / (totalFields : ℚ)) * 100
    else 0
  let c6 := dictSet c5 "confidenceScore" (.vRat score)
  let nr := (c6.filter (fun kv =>
    pyTruthy kv.2 && strContains (pyStr kv.2) "[REVISAR]")).map (·.1)
  dictSet c6 "needsReview" (.vList nr)

/-! ## Helper lemmas -/

/-- With an always-raising operation whose message passes the keyword
test, every attempt up to the bound is consumed and the loop ends in the
terminal-failure dictionary. -/
theorem retryGo_raise_kw (cfg : RetryConfig) (m : String)
    (h : kwMatch m = true) :
    ∀ (r a : Nat) (last : String), a + r = cfg.maxRetries + 1 → 1 ≤ r →
      retryGo cfg (fun _ => .raise m) a last r = (failDict cfg m, r) := by
  intro r
  induction r with
  | zero => intro a last _ h1; omega
  | succ r ih =>
    intro a last ha _
    rw [retryGo]
    match r, ih with
    | 0, _ =>
      have hstop : shouldRetry cfg m a = false := by
        unfold shouldRetry
        have : cfg.maxRetries ≤ a := by omega
        simp [this]
      simp [hstop]
    | r' + 1, ih =>
      have hgo : shouldRetry cfg m a = true := by
        unfold shouldRetry
        have : ¬ cfg.maxRetries ≤ a := by omega
        simp [this, h]
      have hrec := ih (a + 1) m (by omega) (by omega)
      simp [hgo, hrec]

/-- With an always-raising operation, the loop returns the
terminal-failure dictionary built from the message of the last attempt it
performed, and performs between 1 and `remaining` attempts. -/
theorem retryGo_raise_any (cfg : RetryConfig) (f : Nat → String) :
    ∀ (r a : Nat) (last : String), 1 ≤ r →
      ∃ c, retryGo cfg (fun n => .raise (f n)) a last r
          = (failDict cfg (f (a + c - 1)), c) ∧ 1 ≤ c ∧ c ≤ r := by
  intro r
  induction r with
  | zero => intro a last h1; omega
  | succ r ih =>
    intro a last _
    rw [retryGo]
    by_cases hsr : shouldRetry cfg (f a) a = true
    · match r, ih with
      | 0, _ =>
        refine ⟨1, ?_, by omega, by omega⟩
        simp [hsr, retryGo]
      | r' + 1, ih =>
        obtain ⟨c, hc, hc1, hc2⟩ := ih (a + 1) (f a) (by omega)
        refine ⟨c + 1, ?_, by omega, by omega⟩
        have hidx : a + 1 + c - 1 = a + (c + 1) - 1 := by omega
        rw [hidx] at hc
        simp [hsr, hc]
    · refine ⟨1, ?_, by omega, by omega⟩
      have hidx : a + 1 - 1 = a := by omega
      simp [hsr, hidx]

/-- The `valid_fields` counter of the quality loop equals the number of
essential fields passing the found test. -/
theorem tallyFields_count (pd : ParsedRecord) :
    ∀ (fields : List String) (a : Nat) (b c : List String),
      (fields.foldl
        (fun acc f =>
          if fieldFound pd f then (acc.1 + 1, acc.2.1 ++ [f], acc.2.2)
          else (acc.1, acc.2.1, acc.2.2 ++ [f])) (a, b, c)).1
        = a + (fields.filter (fieldFound pd)).length := by
  intro fields
  induction fields with
  | nil => intro a b c; simp
  | cons f fs ih =>
    intro a b c
    by_cases h : fieldFound pd f
    · simp only [List.foldl_cons, List.filter_cons, h, if_pos, if_true]
      rw [ih]
      simp
      omega
    · simp only [List.foldl_cons, List.filter_cons, h]
      rw [if_neg (by simp [h]), ih]
      simp [h]

/-- Modelled from the spec: the post-processing rule as amended — every
value is trimmed, and a value case-insensitively equal to `"null"`,
`"none"` or the empty string is normalized to null; interior whitespace
is left untouched. -/
def cleanValueSpec (v : Option String) : Option String :=
  v.bind fun s =>
    let t := pyStrip s
    if ["null", "none", ""].contains (pyLower t) then none else some t

/-- Stripping the empty string is the empty string. -/
theorem pyStrip_empty : pyStrip "" = "" := rfl

/-- The source's cleaning of one value agrees with the amended rule. -/
theorem cleanValue_eq_spec : ∀ v, cleanValue v = cleanValueSpec v := by
  intro v
  cases v with
  | none => rfl
  | some s =>
    unfold cleanValue cleanValueSpec
    by_cases hEmpty : pyStrip s = ""
    · have hLow : pyLower "" = "" := rfl
      simp [hEmpty, hLow]
    · have hs : s ≠ "" := by
        intro hcon
        exact hEmpty (by rw [hcon]; rfl)
      by_cases hC : pyLower (pyStrip s) = "null"
        ∨ pyLower (pyStrip s) = "none" ∨ pyLower (pyStrip s) = ""
      · rcases hC with h | h | h <;> simp [hs, hEmpty, h]
      · push_neg at hC
        simp [hs, hEmpty, hC.1, hC.2.1, hC.2.2]

/-- Lookup through the cleaning map. -/
theorem lookup_validateEssentialFields (data : ParsedRecord)
    (dt k : String) :
    (validateEssentialFields data dt).lookup k
      = (data.lookup k).map cleanValue := by
  induction data with
  | nil => rfl
  | cons kv rest ih =>
    unfold validateEssentialFields at ih ⊢
    cases hbe : k == kv.1 with
    | true => simp [List.lookup, hbe]
    | false => simp [List.lookup, hbe, ih]

/-- When the proof-of-address result is present and successful but the
`endereco` entry is already truthy, the address step changes nothing. -/
theorem stepAddr_skip (ocr : List (String × DocInput))
    (c : List (String × PyVal)) (doc : DocInput)
    (hdoc : ocr.lookup "address" = some doc) (hsucc : doc.success = true)
    (hT : pyTruthy (dictGetV c "endereco") = true) :
    stepAddr ocr c = c := by
  unfold stepAddr
  rw [hdoc]
  simp [hsucc, hT]

/-- When the proof-of-address result is present and successful and the
`endereco` entry is falsy, the whole seven-field address block is copied
from the proof-of-address record. -/
theorem stepAddr_fill (ocr : List (String × DocInput))
    (c : List (String × PyVal)) (doc : DocInput)
    (hdoc : ocr.lookup "address" = some doc) (hsucc : doc.success = true)
    (hF : pyTruthy (dictGetV c "endereco") = false) :
    stepAddr ocr c = dictSetMany c
      [ ("endereco", pdGetV doc.parsedData "endereco")
      , ("numero", pdGetV doc.parsedData "numero")
      , ("complemento", pdGetV doc.parsedData "complemento")
      , ("bairro", pdGetV doc.parsedData "bairro")
      , ("cidade", pdGetV doc.parsedData "cidade")
      , ("uf", pdGetV doc.parsedData "uf")
      , ("cep", pdGetV doc.parsedData "cep") ] := by
  unfold stepAddr
  rw [hdoc]
  simp [hsucc, hF]

/-! ## Claim theorems -/

/-- C1 (confirmed): for every parsed record and supported document kind
(rg, cnpj, address — exactly the kinds with a schema in
`quality_checks`), the quality evaluator accepts iff the number of
essential fields whose value passes the found test (non-null, non-empty
after trimming, not a reserved sentinel) is at least the schema's
minimum, and its score is exactly `100 × found / total`. -/
theorem c1_quality_accept_iff_score (dt : String) (check : QualityCheck)
    (hdt : qualityChecks dt = some check) (r : OcrResult)
    (hs : r.success = true) :
    ∃ qm : QMetrics,
      (validateOcrResult r dt).qualityMetrics = some qm ∧
      (validateOcrResult r dt).success = qm.isAcceptable ∧
      (qm.isAcceptable = true ↔
        check.minFields ≤
          (check.requiredFields.filter (fieldFound r.parsedData)).length) ∧
      qm.score = 100 *
        (((check.requiredFields.filter (fieldFound r.parsedData)).length : ℚ)
          / (check.requiredFields.length : ℚ)) := by
  have hcnt : (tallyFields r.parsedData check.requiredFields).1
      = (check.requiredFields.filter (fieldFound r.parsedData)).length := by
    have := tallyFields_count r.parsedData check.requiredFields 0 [] []
    simpa [tallyFields] using this
  unfold validateOcrResult
  rw [hdt, hs]
  simp only [Bool.true_eq_false, if_false]
  by_cases hacc : check.minFields ≤ (tallyFields r.parsedData check.requiredFields).1
  · have hd : decide (check.minFields
        ≤ (tallyFields r.parsedData check.requiredFields).1) = true :=
      decide_eq_true hacc
    rw [if_pos hd]
    refine ⟨_, rfl, ?_, ?_, ?_⟩
    · simp [hd]
    · simp only [decide_eq_true_eq, hcnt]
    · simp only [hcnt]
      rw [mul_comm]
  · have hd : decide (check.minFields
        ≤ (tallyFields r.parsedData check.requiredFields).1) = false := by
      simp [hacc]
    rw [if_neg (by simp [hd])]
    refine ⟨_, rfl, ?_, ?_, ?_⟩
    · simp [hd]
    · simp only [decide_eq_true_eq, hcnt]
    · simp only [hcnt]
      rw [mul_comm]

/-- A concrete rg record with two of the three essential fields found. -/
def c1Rec : OcrResult :=
  { success := true, documentType := "rg"
  , parsedData := [("nome_completo", some "JOAO SILVA")
      , ("data_nascimento", some "01/01/1990"), ("cpf", none)]
  , error := none, retryReason := none, qualityMetrics := none }

/-- C1 witness: the theorem applied to the rg schema and a record with 2
of 3 essential fields found. -/
theorem c1_witness :
    qualityChecks "rg"
      = some ⟨["nome_completo", "data_nascimento", "cpf"], 2⟩ ∧
    c1Rec.success = true ∧
    ((["nome_completo", "data_nascimento", "cpf"] : List String).filter
      (fieldFound c1Rec.parsedData)).length = 2 ∧
    (∃ qm : QMetrics,
      (validateOcrResult c1Rec "rg").qualityMetrics = some qm ∧
      (validateOcrResult c1Rec "rg").success = qm.isAcceptable ∧
      (qm.isAcceptable = true ↔
        (2 : Nat) ≤ ((["nome_completo", "data_nascimento", "cpf"] :
          List String).filter (fieldFound c1Rec.parsedData)).length) ∧
      qm.score = 100 *
        ((((["nome_completo", "data_nascimento", "cpf"] :
            List String).filter (fieldFound c1Rec.parsedData)).length : ℚ)
          / (((["nome_completo", "data_nascimento", "cpf"] :
            List String)).length : ℚ))) :=
  ⟨rfl, rfl, rfl,
    c1_quality_accept_iff_score "rg"
      ⟨["nome_completo", "data_nascimento", "cpf"], 2⟩ rfl c1Rec rfl⟩

/-- An rg record in which only one essential field was extracted. -/
def c2Input : OcrResult :=
  { success := true, documentType := "rg"
  , parsedData := [("nome_completo", some "JOAO DA SILVA")
      , ("data_nascimento", none), ("cpf", none)]
  , error := none, retryReason := none, qualityMetrics := none }

/-- The quality-rejection message produced for that record. -/
def c2Msg : String := "Apenas 1/3 campos essenciais extraídos. Mínimo: 2"

/-- C2 (code_bug): a quality rejection marks itself `needs_retry`, but
the retry wrapper re-checks its error message against the transport
keyword list, which the message never matches — so the rejected result is
returned after a single attempt even though attempt 0 is below
`max_retries = 3`.  This contradicts the claim (and the source's own
`needs_retry`/`retry_reason` markers) that a quality rejection is always
retried while attempts remain. -/
theorem c2_quality_rejection_not_retried :
    (validateOcrResult c2Input "rg").success = false ∧
    (validateOcrResult c2Input "rg").error = some c2Msg ∧
    (validateOcrResult c2Input "rg").retryReason
      = some "insufficient_essential_fields" ∧
    ((validateOcrResult c2Input "rg").qualityMetrics.map QMetrics.needsRetry)
      = some true ∧
    shouldRetry { maxRetries := 3 } c2Msg 0 = false ∧
    retryRun { maxRetries := 3 }
        (fun _ => .ok (toRDict (validateOcrResult c2Input "rg")))
      = (toRDict (validateOcrResult c2Input "rg"), 1) :=
  ⟨rfl, rfl, rfl, rfl, by decide, rfl⟩

/-- The consolidator input in which every document failed. -/
def c3AllFailed : List (String × DocInput) :=
  [("rg", ⟨false, []⟩), ("cnpj", ⟨false, []⟩), ("address", ⟨false, []⟩)]

/-- C3 (code_bug): with every document failed the consolidator still
returns a profile, but its `confidenceScore` is `300/17 ≈ 17.6`, not `0`:
the filled-fields comprehension of line 726 iterates over all values —
including the metadata entries `confidenceScore = 0`,
`fieldsExtracted = 0` and `fieldsTotal = 0`, which pass its conditions —
so `fieldsExtracted` is 3 instead of 0. -/
theorem c3_all_failed_score_not_zero :
    (consolidateCustomerData c3AllFailed).lookup "confidenceScore"
      = some (.vRat (300 / 17)) ∧
    (consolidateCustomerData c3AllFailed).lookup "fieldsExtracted"
      = some (.vInt 3) ∧
    (consolidateCustomerData c3AllFailed).lookup "fieldsTotal"
      = some (.vInt 17) ∧
    (300 / 17 : ℚ) ≠ 0 := by
  refine ⟨?_, rfl, rfl, by norm_num⟩
  have hlook : (consolidateCustomerData c3AllFailed).lookup "confidenceScore"
      = some (.vRat (((3 : Nat) : ℚ) / ((17 : Nat) : ℚ) * 100)) := by rfl
  rw [hlook]
  norm_num

/-- C4 (confirmed): with `max_retries = 3` and an operation that always
raises a transport error matching a transient keyword, the retry loop
performs exactly 4 attempts (initial + 3 retries) and returns the
terminal-failure dictionary. -/
theorem c4_retry_bound_four_attempts (m : String) (h : kwMatch m = true) :
    retryRun { maxRetries := 3 } (fun _ => .raise m)
      = (failDict { maxRetries := 3 } m, 4) ∧
    (failDict { maxRetries := 3 } m).success = false := by
  constructor
  · exact retryGo_raise_kw ⟨3⟩ m h 4 0 "None" (by norm_num) (by norm_num)
  · rfl

/-- C4 witness: the theorem applied to the message "connection timeout". -/
theorem c4_witness :
    kwMatch "connection timeout" = true ∧
    retryRun { maxRetries := 3 } (fun _ => .raise "connection timeout")
      = (failDict { maxRetries := 3 } "connection timeout", 4) :=
  ⟨by decide,
    (c4_retry_bound_four_attempts "connection timeout" (by decide)).1⟩

/-- A text whose trimmed form begins with a brace and ends with one, is
not valid JSON as a whole, yet contains an embedded JSON candidate. -/
def c5Text : String := "\x7b\x7d \x7b\x7d"

/-- C5 counterexample: on this text the Direct-JSON precondition holds
and its parse fails, the Embedded-JSON scan would succeed, yet JSON
extraction returns nothing — the embedded strategies are skipped because
the direct parse failure propagates to the handler that returns `None`. -/
theorem c5_counterexample :
    pyStartsWith (pyStrip c5Text) "\x7b" = true ∧
    pyEndsWith (pyStrip c5Text) "\x7d" = true ∧
    jsonLoads (pyStrip c5Text) = none ∧
    embeddedJsonScan c5Text = some (.jobj []) ∧
    extractJsonFromText c5Text = none :=
  ⟨rfl, rfl, rfl, rfl, rfl⟩

/-- C5 (corrected): when the trimmed text begins with a brace, ends with
one, and fails to parse as JSON, the parser does not attempt the
Embedded-JSON strategy — it falls directly back to the focused-regex
pattern extraction. -/
theorem c5_direct_failure_falls_to_regex (text dt : String)
    (h1 : pyStartsWith (pyStrip text) "\x7b" = true)
    (h2 : pyEndsWith (pyStrip text) "\x7d" = true)
    (h3 : jsonLoads (pyStrip text) = none) :
    parseExtractedData text dt
      = validateEssentialFields (extractWithFocusedRegex text dt) dt := by
  unfold parseExtractedData extractJsonFromText
  simp [h1, h2, h3]

/-- C5 witness: the amended theorem applied to the counterexample text
and the cnpj kind. -/
theorem c5_witness :
    pyStartsWith (pyStrip c5Text) "\x7b" = true ∧
    jsonLoads (pyStrip c5Text) = none ∧
    parseExtractedData c5Text "cnpj"
      = validateEssentialFields (extractWithFocusedRegex c5Text "cnpj")
          "cnpj" :=
  ⟨rfl, rfl, c5_direct_failure_falls_to_regex c5Text "cnpj" rfl rfl rfl⟩

/-- A consolidator input where the cnpj result has an `endereco` but no
`cep`, while the address result carries both. -/
def c6Input : List (String × DocInput) :=
  [ ("cnpj", ⟨true, [("endereco", .vStr "RUA A")]⟩)
  , ("address", ⟨true, [("cep", .vStr "74000-000")
      , ("endereco", .vStr "RUA B")]⟩) ]

/-- C6 counterexample: the cnpj source's `cep` sub-field is empty and the
address result has one, yet the profile keeps `cep = None` and
`endereco = "RUA A"` — the claimed whole-block replacement on "any
address sub-field empty" does not happen; only an empty `endereco`
triggers it. -/
theorem c6_counterexample :
    (consolidateCustomerData c6Input).lookup "endereco"
      = some (.vStr "RUA A") ∧
    (consolidateCustomerData c6Input).lookup "cep" = some .vNone ∧
    pdGetV [("cep", PyVal.vStr "74000-000")
      , ("endereco", PyVal.vStr "RUA B")] "cep" = .vStr "74000-000" :=
  ⟨rfl, rfl, rfl⟩

/-- Lookup after an in-place dictionary update: the updated key reads the
new value when it was present, every other key is untouched. -/
theorem lookup_dictSet (d : List (String × PyVal)) (k : String) (v : PyVal) :
    ∀ k', (dictSet d k v).lookup k'
      = if k' = k then (d.lookup k').map (fun _ => v) else d.lookup k' := by
  induction d with
  | nil =>
    intro k'
    simp [dictSet]
  | cons ab rest ih =>
    obtain ⟨a, b⟩ := ab
    intro k'
    by_cases hak : a = k
    · subst hak
      by_cases hk' : k' = a
      · have hb : (k' == a) = true := beq_iff_eq.mpr hk'
        simp [dictSet, List.lookup, hb, hk']
      · have hb : (k' == a) = false := by
          simpa using hk'
        simp [dictSet, List.lookup, hb, hk']
    · have hd : dictSet ((a, b) :: rest) k v = (a, b) :: dictSet rest k v := by
        simp [dictSet, hak]
      by_cases hk' : k' = a
      · have hb : (k' == a) = true := beq_iff_eq.mpr hk'
        have hne : ¬ k' = k := by
          rw [hk']
          exact hak
        simp [hd, List.lookup, hb, hne]
      · have hb : (k' == a) = false := by
          simpa using hk'
        simp [hd, List.lookup, hb, ih]

/-- For non-metadata keys, the consolidated profile reads straight from
the three merge steps: the metric updates only touch metadata keys. -/
theorem lookup_consolidate_nonmeta (ocr : List (String × DocInput))
    (k : String) (h1 : k ≠ "fieldsTotal") (h2 : k ≠ "fieldsExtracted")
    (h3 : k ≠ "confidenceScore") (h4 : k ≠ "needsReview") :
    (consolidateCustomerData ocr).lookup k
      = (stepAddr ocr (stepRg ocr (stepCnpj ocr initialConsolidated))).lookup
          k := by
  unfold consolidateCustomerData
  simp only [lookup_dictSet]
  simp [h1, h2, h3, h4]

/-- C6 (corrected): with a successful cnpj and address result, the
proof-of-address block is copied — as a whole seven-field unit — exactly
when the `endereco` entry left by the cnpj step is falsy; when that entry
is truthy, every address field keeps its cnpj-sourced value regardless of
other empty sub-fields. -/
theorem c6_address_block_trigger (cnpjPd addrPd : List (String × PyVal)) :
    (pyTruthy (pdGetV cnpjPd "endereco") = true →
      ∀ k ∈ (["endereco", "numero", "complemento", "bairro", "cidade",
          "uf", "cep"] : List String),
        (consolidateCustomerData
          [("cnpj", ⟨true, cnpjPd⟩), ("address", ⟨true, addrPd⟩)]).lookup k
          = some (pdGetV cnpjPd k)) ∧
    (pyTruthy (pdGetV cnpjPd "endereco") = false →
      ∀ k ∈ (["endereco", "numero", "complemento", "bairro", "cidade",
          "uf", "cep"] : List String),
        (consolidateCustomerData
          [("cnpj", ⟨true, cnpjPd⟩), ("address", ⟨true, addrPd⟩)]).lookup k
          = some (pdGetV addrPd k)) := by
  have hCn : stepCnpj [("cnpj", ⟨true, cnpjPd⟩), ("address", ⟨true, addrPd⟩)]
      initialConsolidated
      = [ ("empresa", pyOr (pdGetV cnpjPd "razao_social")
            (pdGetV cnpjPd "nome_fantasia"))
        , ("cnpj", pdGetV cnpjPd "cnpj")
        , ("inscricaoEstadual", pdGetV cnpjPd "inscricao_estadual")
        , ("email", pdGetV cnpjPd "email")
        , ("telefone", pdGetV cnpjPd "telefone")
        , ("celular", .vNone)
        , ("cep", pdGetV cnpjPd "cep")
        , ("endereco", pdGetV cnpjPd "endereco")
        , ("numero", pdGetV cnpjPd "numero")
        , ("complemento", pdGetV cnpjPd "complemento")
        , ("bairro", pdGetV cnpjPd "bairro")
        , ("cidade", pdGetV cnpjPd "cidade")
        , ("uf", pdGetV cnpjPd "uf")
        , ("nomeCompleto", .vNone), ("cpf", .vNone)
        , ("dataNascimento", .vNone), ("enderecoProprietario", .vNone)
        , ("confidenceScore", .vInt 0), ("fieldsExtracted", .vInt 0)
        , ("fieldsTotal", .vInt 0), ("needsReview", .vList []) ] := rfl
  have hRg : ∀ c, stepRg
      [("cnpj", ⟨true, cnpjPd⟩), ("address", ⟨true, addrPd⟩)] c = c :=
    fun c => rfl
  constructor
  · intro hT k hk
    have hstep := stepAddr_skip
      [("cnpj", ⟨true, cnpjPd⟩), ("address", ⟨true, addrPd⟩)]
      (stepRg [("cnpj", ⟨true, cnpjPd⟩), ("address", ⟨true, addrPd⟩)]
        (stepCnpj [("cnpj", ⟨true, cnpjPd⟩), ("address", ⟨true, addrPd⟩)]
          initialConsolidated))
      ⟨true, addrPd⟩ rfl rfl (by rw [hRg, hCn]; exact hT)
    simp only [List.mem_cons, List.not_mem_nil, or_false] at hk
    rcases hk with rfl | rfl | rfl | rfl | rfl | rfl | rfl <;>
      · rw [lookup_consolidate_nonmeta _ _ (by decide) (by decide)
          (by decide) (by decide), hstep, hRg, hCn]
        rfl
  · intro hF k hk
    have hstep := stepAddr_fill
      [("cnpj", ⟨true, cnpjPd⟩), ("address", ⟨true, addrPd⟩)]
      (stepRg [("cnpj", ⟨true, cnpjPd⟩), ("address", ⟨true, addrPd⟩)]
        (stepCnpj [("cnpj", ⟨true, cnpjPd⟩), ("address", ⟨true, addrPd⟩)]
          initialConsolidated))
      ⟨true, addrPd⟩ rfl rfl (by rw [hRg, hCn]; exact hF)
    rw [hRg, hCn] at hstep
    have hFill : dictSetMany
        [ ("empresa", pyOr (pdGetV cnpjPd "razao_social")
            (pdGetV cnpjPd "nome_fantasia"))
        , ("cnpj", pdGetV cnpjPd "cnpj")
        , ("inscricaoEstadual", pdGetV cnpjPd "inscricao_estadual")
        , ("email", pdGetV cnpjPd "email")
        , ("telefone", pdGetV cnpjPd "telefone")
        , ("celular", .vNone)
        , ("cep", pdGetV cnpjPd "cep")
        , ("endereco", pdGetV cnpjPd "endereco")
        , ("numero", pdGetV cnpjPd "numero")
        , ("complemento", pdGetV cnpjPd "complemento")
        , ("bairro", pdGetV cnpjPd "bairro")
        , ("cidade", pdGetV cnpjPd "cidade")
        , ("uf", pdGetV cnpjPd "uf")
        , ("nomeCompleto", .vNone), ("cpf", .vNone)
        , ("dataNascimento", .vNone), ("enderecoProprietario", .vNone)
        , ("confidenceScore", .vInt 0), ("fieldsExtracted", .vInt 0)
        , ("fieldsTotal", .vInt 0), ("needsReview", .vList []) ]
        [ ("endereco", pdGetV addrPd "endereco")
        , ("numero", pdGetV addrPd "numero")
        , ("complemento", pdGetV addrPd "complemento")
        , ("bairro", pdGetV addrPd "bairro")
        , ("cidade", pdGetV addrPd "cidade")
        , ("uf", pdGetV addrPd "uf")
        , ("cep", pdGetV addrPd "cep") ]
        = [ ("empresa", pyOr (pdGetV cnpjPd "razao_social")
            (pdGetV cnpjPd "nome_fantasia"))
        , ("cnpj", pdGetV cnpjPd "cnpj")
        , ("inscricaoEstadual", pdGetV cnpjPd "inscricao_estadual")
        , ("email", pdGetV cnpjPd "email")
        , ("telefone", pdGetV cnpjPd "telefone")
        , ("celular", .vNone)
        , ("cep", pdGetV addrPd "cep")
        , ("endereco", pdGetV addrPd "endereco")
        , ("numero", pdGetV addrPd "numero")
        , ("complemento", pdGetV addrPd "complemento")
        , ("bairro", pdGetV addrPd "bairro")
        , ("cidade", pdGetV addrPd "cidade")
        , ("uf", pdGetV addrPd "uf")
        , ("nomeCompleto", .vNone), ("cpf", .vNone)
        , ("dataNascimento", .vNone), ("enderecoProprietario", .vNone)
        , ("confidenceScore", .vInt 0), ("fieldsExtracted", .vInt 0)
        , ("fieldsTotal", .vInt 0), ("needsReview", .vList []) ] := rfl
    rw [hFill] at hstep
    simp only [List.mem_cons, List.not_mem_nil, or_false] at hk
    rcases hk with rfl | rfl | rfl | rfl | rfl | rfl | rfl <;>
      · rw [lookup_consolidate_nonmeta _ _ (by decide) (by decide)
          (by decide) (by decide), hRg, hCn, hstep]
        rfl

/-- C6 witness: both branches of the amended theorem applied to concrete
inputs — a truthy cnpj `endereco` keeps the cnpj block (so `cep` stays
null), a falsy one copies the address block's `cep`. -/
theorem c6_witness :
    pyTruthy (pdGetV [("endereco", PyVal.vStr "RUA A")] "endereco")
      = true ∧
    (consolidateCustomerData
      [("cnpj", ⟨true, [("endereco", PyVal.vStr "RUA A")]⟩)
      , ("address", ⟨true, [("cep", PyVal.vStr "74000-000")]⟩)]).lookup "cep"
      = some (pdGetV [("endereco", PyVal.vStr "RUA A")] "cep") ∧
    pyTruthy (pdGetV [("cnpj", PyVal.vStr "11222333000181")] "endereco")
      = false ∧
    (consolidateCustomerData
      [("cnpj", ⟨true, [("cnpj", PyVal.vStr "11222333000181")]⟩)
      , ("address", ⟨true, [("cep", PyVal.vStr "74000-000")]⟩)]).lookup "cep"
      = some (pdGetV [("cep", PyVal.vStr "74000-000")] "cep") := by
  refine ⟨by decide, ?_, by decide, ?_⟩
  · exact (c6_address_block_trigger [("endereco", PyVal.vStr "RUA A")]
      [("cep", PyVal.vStr "74000-000")]).1 (by decide) "cep" (by simp)
  · exact (c6_address_block_trigger [("cnpj", PyVal.vStr "11222333000181")]
      [("cep", PyVal.vStr "74000-000")]).2 (by decide) "cep" (by simp)

/-- C7 counterexample: an unknown document kind does not fail — the
prompt registry hands back the cnpj prompt as its default, and the regex
dispatcher returns an empty record; no `SchemaNotFound` condition exists
anywhere in the pipeline. -/
theorem c7_counterexample :
    getDocumentPrompt "comprovante" = getDocumentPrompt "cnpj" ∧
    getDocumentPrompt "comprovante" = cnpjPrompt ∧
    extractWithFocusedRegex "CEP: 74000-100" "comprovante"
      = ([] : ParsedRecord) :=
  ⟨rfl, rfl, rfl⟩

/-- C7 (corrected): for every document kind outside {rg, cnpj, address},
the prompt registry returns the cnpj prompt by default, pattern
extraction returns an empty record, and quality validation passes its
input through unchanged — no error condition is raised. -/
theorem c7_unknown_kind_defaults (dt : String) (h1 : dt ≠ "rg")
    (h2 : dt ≠ "cnpj") (h3 : dt ≠ "address") :
    getDocumentPrompt dt = cnpjPrompt ∧
    (∀ text, extractWithFocusedRegex text dt = []) ∧
    (∀ res : OcrResult, validateOcrResult res dt = res) := by
  refine ⟨?_, ?_, ?_⟩
  · simp [getDocumentPrompt, h1, h2, h3]
  · intro text
    simp [extractWithFocusedRegex, h1, h2, h3]
  · intro res
    have hq : qualityChecks dt = none := by
      simp [qualityChecks, h1, h2, h3]
    unfold validateOcrResult
    rw [hq]
    by_cases hs : res.success = false <;> simp [hs]

/-- C7 witness: the amended theorem applied to the kind "facade" (a kind
the pipeline accepts yet the registries do not know). -/
theorem c7_witness :
    ("facade" : String) ≠ "rg" ∧
    getDocumentPrompt "facade" = cnpjPrompt ∧
    extractWithFocusedRegex "texto de fachada" "facade" = [] ∧
    validateOcrResult
      { success := false, documentType := "facade", parsedData := []
      , error := some "x", retryReason := none, qualityMetrics := none }
      "facade"
      = { success := false, documentType := "facade", parsedData := []
        , error := some "x", retryReason := none
        , qualityMetrics := none } := by
  have h := c7_unknown_kind_defaults "facade" (by decide) (by decide)
    (by decide)
  exact ⟨by decide, h.1, h.2.1 _, h.2.2 _⟩

/-- C8 counterexample: a value with doubled interior whitespace survives
cleaning unchanged — interior whitespace is not collapsed to single
spaces as the claim states. -/
theorem c8_counterexample :
    validateEssentialFields [("empresa", some "ACME  CORP")] "cnpj"
      = [("empresa", some "ACME  CORP")] ∧
    ("ACME  CORP" : String) ≠ "ACME CORP" :=
  ⟨rfl, by decide⟩

/-- C8 (corrected): post-processing applies exactly per-value — each value
is trimmed and values case-insensitively equal to "null", "none" or the
empty string become null — but interior whitespace is preserved, as the
spec-worded `cleanValueSpec` (which also performs no collapsing) makes
precise. -/
theorem c8_clean_values (data : ParsedRecord) (dt k : String) :
    (validateEssentialFields data dt).lookup k
      = (data.lookup k).map cleanValue
    ∧ ∀ v, cleanValue v = cleanValueSpec v :=
  ⟨lookup_validateEssentialFields data dt k, cleanValue_eq_spec⟩

/-- C9 counterexample: a non-retryable error on the first attempt makes
the wrapper perform exactly one call, yet the returned dictionary reports
`retry_attempts = 4` and an error text claiming four attempts — not the
number of attempts actually performed. -/
theorem c9_counterexample :
    retryRun { maxRetries := 3 } (fun _ => .raise "invalid image format")
      = (failDict { maxRetries := 3 } "invalid image format", 1) ∧
    (failDict { maxRetries := 3 } "invalid image format").retryAttempts
      = some 4 ∧
    (failDict { maxRetries := 3 } "invalid image format").error
      = "Falha após 4 tentativas: invalid image format" ∧
    (1 : Nat) ≠ 4 :=
  ⟨rfl, rfl, rfl, by decide⟩

/-- C9 (corrected): every exception-terminal run yields success = false
and carries the last raised message verbatim in `last_error`, but the
attempt count it reports is always the configured bound
`max_retries + 1`, regardless of the number of attempts actually
performed (which lies between 1 and that bound). -/
theorem c9_terminal_failure_fields (cfg : RetryConfig) (f : Nat → String) :
    ((retryRun cfg (fun n => .raise (f n))).1).success = false ∧
    ((retryRun cfg (fun n => .raise (f n))).1).lastError
      = some (f ((retryRun cfg (fun n => .raise (f n))).2 - 1)) ∧
    ((retryRun cfg (fun n => .raise (f n))).1).error
      = "Falha após " ++ toString (cfg.maxRetries + 1) ++ " tentativas: "
        ++ f ((retryRun cfg (fun n => .raise (f n))).2 - 1) ∧
    ((retryRun cfg (fun n => .raise (f n))).1).retryAttempts
      = some (cfg.maxRetries + 1) ∧
    1 ≤ (retryRun cfg (fun n => .raise (f n))).2 ∧
    (retryRun cfg (fun n => .raise (f n))).2 ≤ cfg.maxRetries + 1 := by
  obtain ⟨c, hEq, hc1, hc2⟩ :=
    retryGo_raise_any cfg f (cfg.maxRetries + 1) 0 "None" (by omega)
  have hrun : retryRun cfg (fun n => .raise (f n))
      = (failDict cfg (f (0 + c - 1)), c) := hEq
  rw [hrun]
  simp only [Nat.zero_add]
  exact ⟨rfl, rfl, rfl, rfl, hc1, hc2⟩

/-- C10 (confirmed): in the cnpj pattern-extraction fallback, whenever
the `empresa` field is non-null, the `nome_comprovante` field carries the
same matched company name. -/
theorem c10_empresa_implies_nome (text e : String)
    (h : pdGet (extractCnpjFields text) "empresa" = some e) :
    pdGet (extractCnpjFields text) "nome_comprovante" = some e := by
  have h' : empresaFieldScan text.data = some e := h
  show (match empresaFieldScan text.data with
        | some e0 => some e0
        | none => nomeComprovanteLineScan text) = some e
  rw [h']

/-- C10 witness: the theorem applied to a text whose company name is
found by the labelled `empresa` pattern. -/
theorem c10_witness :
    pdGet (extractCnpjFields "empresa: ACME COMPANY LTDA") "empresa"
      = some "ACME COMPANY LTDA" ∧
    pdGet (extractCnpjFields "empresa: ACME COMPANY LTDA")
      "nome_comprovante" = some "ACME COMPANY LTDA" :=
  ⟨rfl, c10_empresa_implies_nome "empresa: ACME COMPANY LTDA"
    "ACME COMPANY LTDA" rfl⟩

end WalksOcr
